import Mathlib

/-!
# Shallow embedding of the yb::rpc reactor core (src/yb/rpc/reactor.cc)

This file embeds the reactor's data model and the operations referenced by the
specification: the delayed-task state machine, the cross-thread task queue
(`ScheduleReactorTask` / `AsyncHandler` / `ShutdownInternal`), the outbound call
pump (`QueueOutboundCall` / `ProcessOutboundQueue` / `AssignOutboundCall`), the
idle-connection scanner, the reactor timer handler, connection destruction, and
the `RunOnReactorThread` round-trip used by `GetMetrics`.

Conventions of the embedding:
* Tasks and outbound calls are identified by `Nat` ids; connection objects carry
  a `ptr : Nat` modelling C++ pointer identity (`0` is reserved for the null
  `ConnectionPtr`).
* Side effects that the C++ code performs on other objects (`task->Run`,
  `task->Abort(status)`, `call->Transferred(status)`, `call->SetFailed`,
  `conn->Shutdown(status)`, `conn->QueueOutboundCall`, `conn->OutboundQueued()`,
  waking the reactor thread, submitting negotiation, breaking the loop) are
  recorded in an explicit effect trace, in program order.
* Monotonic times are `Nat` (coarse clock readings); time deltas are `Int`.
-/

/-- Statuses used by the reactor core.  Mirrors the `STATUS(...)` constructions
in reactor.cc: a status has a code, a message and an optional POSIX errno
(`-1` when the C++ code passes no errno).  `networkError` carries the idle
delta that the C++ code formats into its "connection timed out after %s"
message. -/
inductive Status where
  | ok : Status
  | serviceUnavailable (msg : String) (errno : Int) : Status
  | aborted (msg : String) (errno : Int) : Status
  | networkError (idleDelta : Int) : Status
deriving DecidableEq, Repr

/-- POSIX `ESHUTDOWN` on Linux. -/
def ESHUTDOWN : Int := 108

/-- `ShutdownError(bool aborted)` from reactor.cc: `Aborted` or
`ServiceUnavailable` with message "reactor is shutting down" and errno
`ESHUTDOWN`. -/
def ShutdownError (aborted : Bool) : Status :=
  if aborted then .aborted "reactor is shutting down" ESHUTDOWN
  else .serviceUnavailable "reactor is shutting down" ESHUTDOWN

/-! ## DelayedTask (exactly-once invocation of `func_`) -/

/-- Observable state of one `DelayedTask`: its `done_` flag and the ordered
list of statuses with which `func_` has been invoked so far.  The per-task
mutex serializes `MarkAsDone`, `AbortTask` and `TimerHandler`, so their
executions are modelled as atomic steps. -/
structure DelayedTaskState where
  done : Bool
  invocations : List Status
deriving DecidableEq, Repr

/-- A freshly constructed `DelayedTask`: not done, `func_` never invoked. -/
def initialDelayedTask : DelayedTaskState := { done := false, invocations := [] }

/-- `DelayedTask::MarkAsDone`: under the task lock, return `false` if `done_`
is already set, otherwise set it and return `true`. -/
def MarkAsDone (s : DelayedTaskState) : Bool × DelayedTaskState :=
  if s.done then (false, s) else (true, { s with done := true })

/-- `DelayedTask::AbortTask(abort_status)`: if `MarkAsDone()` wins, stop the
timer and invoke `func_(abort_status)`.  `DelayedTask::Abort` just calls this. -/
def AbortTask (abortStatus : Status) (s : DelayedTaskState) : DelayedTaskState :=
  let r := MarkAsDone s
  if r.1 then { r.2 with invocations := r.2.invocations ++ [abortStatus] } else r.2

/-- The status the timer handler passes to `func_`: `Status::OK()` on a clean
fire, `STATUS(Aborted, "Delayed task got an error in its timer handler")` when
the libev revents carry `EV_ERROR`. -/
def timerFireStatus (timerError : Bool) : Status :=
  if timerError then .aborted "Delayed task got an error in its timer handler" (-1)
  else .ok

/-- `DelayedTask::TimerHandler`: if `MarkAsDone()` loses, the task was already
executed by `Abort`/`AbortTask` and nothing happens; otherwise the task removes
itself from `scheduled_tasks_` and invokes `func_` with `timerFireStatus`. -/
def DelayedTaskTimerHandler (timerError : Bool) (s : DelayedTaskState) : DelayedTaskState :=
  let r := MarkAsDone s
  if r.1 then { r.2 with invocations := r.2.invocations ++ [timerFireStatus timerError] }
  else r.2

/-- The events that can finalize a `DelayedTask`: an `Abort`/`AbortTask` call
with some status (from any thread), or a timer fire (with or without a timer
error). -/
inductive DTEvent where
  | abort (st : Status) : DTEvent
  | timerFire (timerError : Bool) : DTEvent
deriving DecidableEq, Repr

/-- The status with which an event invokes `func_` when it wins the race. -/
def DTEvent.statusOf : DTEvent → Status
  | .abort st => st
  | .timerFire e => timerFireStatus e

/-- One serialized step on a delayed task. -/
def dtStep (s : DelayedTaskState) : DTEvent → DelayedTaskState
  | .abort st => AbortTask st s
  | .timerFire e => DelayedTaskTimerHandler e s

/-- Run a serialized sequence of abort / timer-fire events on a task. -/
def dtRun (s : DelayedTaskState) (evs : List DTEvent) : DelayedTaskState :=
  evs.foldl dtStep s

theorem dtStep_of_done (s : DelayedTaskState) (e : DTEvent) (h : s.done = true) :
    dtStep s e = s := by
  cases e with
  | abort st => simp [dtStep, AbortTask, MarkAsDone, h]
  | timerFire te => simp [dtStep, DelayedTaskTimerHandler, MarkAsDone, h]

theorem dtRun_of_done (s : DelayedTaskState) (evs : List DTEvent) (h : s.done = true) :
    dtRun s evs = s := by
  induction evs with
  | nil => rfl
  | cons e rest ih =>
    simp only [dtRun, List.foldl_cons]
    rw [dtStep_of_done s e h]
    exact ih

theorem dtStep_initial (e : DTEvent) :
    dtStep initialDelayedTask e = { done := true, invocations := [e.statusOf] } := by
  cases e with
  | abort st =>
    simp [dtStep, AbortTask, MarkAsDone, initialDelayedTask, DTEvent.statusOf]
  | timerFire te =>
    simp [dtStep, DelayedTaskTimerHandler, MarkAsDone, initialDelayedTask, DTEvent.statusOf]

/-- **C1 (amended).** For every `DelayedTask`, across any serialized sequence of
`Abort`/`AbortTask` calls and timer fires, `func_` is invoked exactly once
(never, if no event occurs), by the first event — the one whose `MarkAsDone`
flips the `done_` flag — with that event's status: the abort status for an
abort, and `Status::OK` or `Aborted("Delayed task got an error in its timer
handler")` from the timer.  Every later event is a no-op. -/
theorem delayedTask_func_invoked_exactly_once (evs : List DTEvent) :
    (dtRun initialDelayedTask evs).invocations =
      match evs with
      | [] => []
      | e :: _ => [e.statusOf] := by
  cases evs with
  | nil => rfl
  | cons e rest =>
    show (dtRun (dtStep initialDelayedTask e) rest).invocations = [e.statusOf]
    rw [dtStep_initial, dtRun_of_done _ rest rfl]

/-- **C1, counterexample to the claim as stated.** The claim asserts the timer
handler invokes `func_` with `Aborted("timer error")` on a timer error; the code
uses the message "Delayed task got an error in its timer handler".  At the
concrete input of a single erroring timer fire, the recorded invocation status
differs from the claimed one. -/
theorem delayedTask_timer_error_message_counterexample :
    (dtRun initialDelayedTask [DTEvent.timerFire true]).invocations =
        [Status.aborted "Delayed task got an error in its timer handler" (-1)] ∧
      (dtRun initialDelayedTask [DTEvent.timerFire true]).invocations ≠
        [Status.aborted "timer error" (-1)] := by
  constructor
  · decide
  · decide

/-! ## Reactor state and effect traces -/

/-- `Connection::Direction`. -/
inductive Direction where
  | client : Direction
  | server : Direction
deriving DecidableEq, Repr

/-- The attributes of a `Connection` the reactor core observes: pointer
identity, direction, the remote endpoint and user credentials (used to rebuild
`ConnectionId`s in `DestroyConnection`), the `Idle()` predicate, the
last-activity timestamp, and whether its context reports `ReadyToStop()`. -/
structure Conn where
  ptr : Nat
  direction : Direction
  remote : Nat
  creds : Nat
  idle : Bool
  lastActivityTime : Nat
  readyToStop : Bool
deriving DecidableEq, Repr

/-- `ConnectionId`: (remote endpoint, user credentials, per-endpoint index). -/
structure ConnectionId where
  remote : Nat
  creds : Nat
  idx : Nat
deriving DecidableEq, Repr

/-- Observable side effects of reactor operations, in program order. -/
inductive Effect where
  | taskRun (task : Nat) : Effect
  | taskAborted (task : Nat) (st : Status) : Effect
  | transferred (call : Nat) (st : Status) : Effect
  | setFailed (call : Nat) : Effect
  | connShutdown (ptr : Nat) (st : Status) : Effect
  | connQueuedCall (ptr : Nat) (call : Nat) : Effect
  | outboundQueued (ptr : Nat) : Effect
  | negotiationStarted (ptr : Nat) (deadline : Nat) : Effect
  | wakeThread : Effect
  | checkReadyToStop : Effect
  | scanIdle : Effect
  | breakLoop : Effect
deriving DecidableEq, Repr

/-- The reactor's state: the `closing_` and `stopping_` flags, the
lock-guarded `pending_tasks_` / `outbound_queue_` / `outbound_queue_stopped_`,
and the reactor-thread-only tables and scratch buffers.  `clientConns` is the
`client_conns_` map as an association list with unique keys; `scheduledTasks`
and task lists hold task ids; `outboundQueue` holds call ids. -/
structure ReactorState where
  closing : Bool
  stopping : Bool
  pendingTasks : List Nat
  asyncHandlerTasks : List Nat
  scheduledTasks : List Nat
  outboundQueue : List Nat
  processingOutboundQueue : List Nat
  outboundQueueStopped : Bool
  serverConns : List Conn
  clientConns : List (ConnectionId × Conn)
  waitingConns : List Conn
  curTime : Nat
  connectionKeepaliveTime : Nat
deriving DecidableEq, Repr

/-- `Reactor::ScheduleReactorTask(task)`: under `pending_tasks_lock_`, if
`closing_` then (with the lock released) `task->Abort(ShutdownError(false))`
and return; otherwise push onto `pending_tasks_` and wake the reactor thread. -/
def ScheduleReactorTask (task : Nat) (s : ReactorState) : ReactorState × List Effect :=
  if s.closing then
    (s, [.taskAborted task (ShutdownError false)])
  else
    ({ s with pendingTasks := s.pendingTasks ++ [task] }, [.wakeThread])

/-- `Reactor::CheckReadyToStop`: drop every waiting connection whose context
reports `ReadyToStop()`; if none remain, break the event loop.  The leading
`checkReadyToStop` effect records that the function was invoked. -/
def CheckReadyToStop (s : ReactorState) : ReactorState × List Effect :=
  let remaining := s.waitingConns.filter (fun c => !c.readyToStop)
  ({ s with waitingConns := remaining },
    .checkReadyToStop :: (if remaining.isEmpty then [.breakLoop] else []))

/-- `Reactor::ShutdownInternal` (reactor thread): set `stopping_`; shut every
client connection down with `ShutdownError(false)` and park the not-yet-ready
ones in `waiting_conns_`; same for server connections; `Abort` every scheduled
task and every task in the drained `async_handler_tasks_` buffer with
`ShutdownError(true)`; then, under `outbound_queue_lock_`, set
`outbound_queue_stopped_` and swap `outbound_queue_` with
`processing_outbound_queue_`; finally `Transferred(aborted)` each swapped-out
call and clear the scratch buffer. -/
def ShutdownInternal (s : ReactorState) : ReactorState × List Effect :=
  let su := ShutdownError false
  let ab := ShutdownError true
  let clientEffects := s.clientConns.map (fun p => Effect.connShutdown p.2.ptr su)
  let waitingFromClients := (s.clientConns.map Prod.snd).filter (fun c => !c.readyToStop)
  let serverEffects := s.serverConns.map (fun c => Effect.connShutdown c.ptr su)
  let waitingFromServers := s.serverConns.filter (fun c => !c.readyToStop)
  let scheduledEffects := s.scheduledTasks.map (fun t => Effect.taskAborted t ab)
  let asyncEffects := s.asyncHandlerTasks.map (fun t => Effect.taskAborted t ab)
  let swappedOut := s.outboundQueue
  let callEffects := swappedOut.map (fun c => Effect.transferred c ab)
  ({ s with
      stopping := true
      clientConns := []
      serverConns := []
      waitingConns := s.waitingConns ++ waitingFromClients ++ waitingFromServers
      scheduledTasks := []
      outboundQueueStopped := true
      outboundQueue := s.processingOutboundQueue
      processingOutboundQueue := [] },
    clientEffects ++ serverEffects ++ scheduledEffects ++ asyncEffects ++ callEffects)

/-- `Reactor::AsyncHandler`: drain `pending_tasks_` into the
`async_handler_tasks_` buffer (`DrainTaskQueue`, which reports `!closing_`);
if the reactor is closing, run `ShutdownInternal()` then `CheckReadyToStop()`;
otherwise `Run` each drained task.  A scope-exit clears the buffer when the
handler returns. -/
def AsyncHandler (s : ReactorState) : ReactorState × List Effect :=
  let drained := s.pendingTasks
  let s1 := { s with pendingTasks := [], asyncHandlerTasks := drained }
  if s.closing then
    let r2 := ShutdownInternal s1
    let r3 := CheckReadyToStop r2.1
    ({ r3.1 with asyncHandlerTasks := [] }, r2.2 ++ r3.2)
  else
    ({ s1 with asyncHandlerTasks := [] }, drained.map Effect.taskRun)

/-! ## C2: ScheduleReactorTask under `closing_`, and Run/Abort exclusivity -/

theorem shutdownInternal_no_taskRun (s : ReactorState) (t : Nat) :
    Effect.taskRun t ∉ (ShutdownInternal s).2 := by
  simp only [ShutdownInternal, List.mem_append, List.mem_map]
  intro h
  rcases h with ((((⟨p, _, hp⟩ | ⟨c, _, hc⟩) | ⟨u, _, hu⟩) | ⟨u, _, hu⟩) | ⟨c, _, hc⟩) <;>
    simp_all

theorem checkReadyToStop_no_taskRun (s : ReactorState) (t : Nat) :
    Effect.taskRun t ∉ (CheckReadyToStop s).2 := by
  simp only [CheckReadyToStop, List.mem_cons]
  intro h
  rcases h with h | h
  · exact Effect.noConfusion h
  · split at h <;> simp_all

/-- **C2.** For every task passed to `ScheduleReactorTask`: when `closing_` is
true the state (and in particular `pending_tasks_`) is unchanged and the sole
effect is one `Abort` with `ServiceUnavailable("reactor is shutting down",
errno ESHUTDOWN)`; when `closing_` is false the task is appended to
`pending_tasks_` and the only effect is waking the reactor.  Moreover no task
receives both `Run` and `Abort`: neither a `ScheduleReactorTask` call nor an
`AsyncHandler` pass (which runs all drained tasks when open, and aborts them
via `ShutdownInternal` when closing) emits both effects for one task. -/
theorem scheduleReactorTask_closing_aborts (task : Nat) (s : ReactorState) :
    (s.closing = true →
      ScheduleReactorTask task s =
        (s, [.taskAborted task (.serviceUnavailable "reactor is shutting down" ESHUTDOWN)])) ∧
    (s.closing = false →
      ScheduleReactorTask task s =
        ({ s with pendingTasks := s.pendingTasks ++ [task] }, [.wakeThread])) ∧
    (∀ t st, ¬(Effect.taskRun t ∈ (ScheduleReactorTask task s).2 ∧
               Effect.taskAborted t st ∈ (ScheduleReactorTask task s).2)) ∧
    (∀ t st, ¬(Effect.taskRun t ∈ (AsyncHandler s).2 ∧
               Effect.taskAborted t st ∈ (AsyncHandler s).2)) := by
  refine ⟨fun hc => ?_, fun hc => ?_, fun t st h => ?_, fun t st h => ?_⟩
  · simp [ScheduleReactorTask, hc, ShutdownError]
  · simp [ScheduleReactorTask, hc]
  · obtain ⟨hrun, habort⟩ := h
    by_cases hc : s.closing <;> simp_all [ScheduleReactorTask]
  · obtain ⟨hrun, habort⟩ := h
    cases hb : s.closing
    · simp [AsyncHandler, hb] at habort
    · simp only [AsyncHandler] at hrun
      rw [hb] at hrun
      simp only [if_pos rfl] at hrun
      rcases List.mem_append.mp hrun with h | h
      · exact shutdownInternal_no_taskRun _ t h
      · exact checkReadyToStop_no_taskRun _ t h

/-- Witness for C2 at a concrete closing state and a concrete open state. -/
def c2ClosingState : ReactorState :=
  { closing := true, stopping := false, pendingTasks := [], asyncHandlerTasks := []
    scheduledTasks := [], outboundQueue := [], processingOutboundQueue := []
    outboundQueueStopped := false, serverConns := [], clientConns := []
    waitingConns := [], curTime := 0, connectionKeepaliveTime := 60 }

theorem scheduleReactorTask_closing_aborts_witness :
    ScheduleReactorTask 7 c2ClosingState =
      (c2ClosingState,
        [.taskAborted 7 (.serviceUnavailable "reactor is shutting down" ESHUTDOWN)]) :=
  (scheduleReactorTask_closing_aborts 7 c2ClosingState).1 rfl

/-! ## C4: ShutdownInternal drains every table and finalizes queued work -/

theorem count_transferred_map (l : List Nat) (c : Nat) (ab : Status) :
    (l.map (fun x => Effect.transferred x ab)).count (Effect.transferred c ab) = l.count c := by
  induction l with
  | nil => rfl
  | cons x rest ih =>
    simp only [List.map_cons, List.count_cons, ih]
    by_cases hx : c = x
    · simp [hx]
    · simp [hx, Effect.transferred.injEq]

/-- **C4.** After `ShutdownInternal` runs on the reactor thread (between
reactor tasks, so the `processing_outbound_queue_` scratch buffer is empty),
`client_conns_`, `server_conns_`, `scheduled_tasks_` and `outbound_queue_` are
all empty; every previously scheduled task has received
`Abort(Aborted("reactor is shutting down"))`; and every outbound call that was
still in the queue has received `Transferred` with that aborted status exactly
as many times as it sat in the queue (exactly once for each queue entry). -/
theorem shutdownInternal_drains_everything (s : ReactorState)
    (hproc : s.processingOutboundQueue = []) :
    (ShutdownInternal s).1.clientConns = [] ∧
    (ShutdownInternal s).1.serverConns = [] ∧
    (ShutdownInternal s).1.scheduledTasks = [] ∧
    (ShutdownInternal s).1.outboundQueue = [] ∧
    (∀ t ∈ s.scheduledTasks,
      Effect.taskAborted t (ShutdownError true) ∈ (ShutdownInternal s).2) ∧
    (∀ c, ((ShutdownInternal s).2).count (Effect.transferred c (ShutdownError true)) =
          s.outboundQueue.count c) := by
  refine ⟨rfl, rfl, rfl, hproc, fun t ht => ?_, fun c => ?_⟩
  · simp only [ShutdownInternal]
    exact List.mem_append_left _ (List.mem_append_left _ (List.mem_append_right _
      (List.mem_map_of_mem (fun t => Effect.taskAborted t (ShutdownError true)) ht)))
  · simp only [ShutdownInternal, List.count_append]
    rw [count_transferred_map]
    have h1 : (s.clientConns.map
        (fun p => Effect.connShutdown p.2.ptr (ShutdownError false))).count
          (Effect.transferred c (ShutdownError true)) = 0 := by
      rw [List.count_eq_zero]
      simp
    have h2 : (s.serverConns.map
        (fun x => Effect.connShutdown x.ptr (ShutdownError false))).count
          (Effect.transferred c (ShutdownError true)) = 0 := by
      rw [List.count_eq_zero]
      simp
    have h3 : (s.scheduledTasks.map
        (fun t => Effect.taskAborted t (ShutdownError true))).count
          (Effect.transferred c (ShutdownError true)) = 0 := by
      rw [List.count_eq_zero]
      simp
    have h4 : (s.asyncHandlerTasks.map
        (fun t => Effect.taskAborted t (ShutdownError true))).count
          (Effect.transferred c (ShutdownError true)) = 0 := by
      rw [List.count_eq_zero]
      simp
    omega

/-- Concrete pre-shutdown state for the C4 witness: one client connection (not
ready to stop), one server connection (ready to stop), two scheduled tasks and
two queued outbound calls. -/
def c4Conn1 : Conn :=
  { ptr := 1, direction := .client, remote := 10, creds := 1, idle := false
    lastActivityTime := 0, readyToStop := false }

def c4Conn2 : Conn :=
  { ptr := 2, direction := .server, remote := 11, creds := 0, idle := true
    lastActivityTime := 0, readyToStop := true }

def c4State : ReactorState :=
  { closing := true, stopping := false, pendingTasks := [], asyncHandlerTasks := [4]
    scheduledTasks := [5, 6], outboundQueue := [8, 9], processingOutboundQueue := []
    outboundQueueStopped := false, serverConns := [c4Conn2]
    clientConns := [(⟨10, 1, 0⟩, c4Conn1)], waitingConns := []
    curTime := 0, connectionKeepaliveTime := 60 }

theorem shutdownInternal_drains_everything_witness :
    (ShutdownInternal c4State).1.clientConns = [] ∧
    (ShutdownInternal c4State).1.serverConns = [] ∧
    (ShutdownInternal c4State).1.scheduledTasks = [] ∧
    (ShutdownInternal c4State).1.outboundQueue = [] ∧
    (∀ t ∈ c4State.scheduledTasks,
      Effect.taskAborted t (ShutdownError true) ∈ (ShutdownInternal c4State).2) ∧
    (∀ c, ((ShutdownInternal c4State).2).count (Effect.transferred c (ShutdownError true)) =
          c4State.outboundQueue.count c) :=
  shutdownInternal_drains_everything c4State rfl

/-! ## C5: QueueOutboundCall -/

/-- Task id reserved for the reactor's single cached
`process_outbound_queue_task_` (the flush task). -/
def processOutboundQueueTaskId : Nat := 0

/-- `Reactor::QueueOutboundCall(call)`: under `outbound_queue_lock_`, if the
queue is stopped remember that; otherwise record whether the queue was empty
and push the call.  Outside the lock: if stopped, `call->Transferred` with the
aborted shutting-down status; else, if the push was onto an empty queue,
`ScheduleReactorTask(process_outbound_queue_task_)`. -/
def QueueOutboundCall (call : Nat) (s : ReactorState) : ReactorState × List Effect :=
  if s.outboundQueueStopped then
    (s, [.transferred call (ShutdownError true)])
  else
    let s1 := { s with outboundQueue := s.outboundQueue ++ [call] }
    if s.outboundQueue.isEmpty then
      ScheduleReactorTask processOutboundQueueTaskId s1
    else
      (s1, [])

/-- **C5.** For every call passed to `QueueOutboundCall`: if
`outbound_queue_stopped_` is true, the call receives `Transferred` with
`Aborted("reactor is shutting down")` and the whole state (in particular the
queue) is unchanged; otherwise the call is pushed onto `outbound_queue_` and
the flush task is handed to `ScheduleReactorTask` if and only if the queue was
empty immediately before the push (when the reactor is open this appends the
flush task to `pending_tasks_` and wakes the reactor; on a non-empty queue
nothing is scheduled and no effect occurs). -/
theorem queueOutboundCall_pushes_and_flushes (call : Nat) (s : ReactorState) :
    (s.outboundQueueStopped = true →
      QueueOutboundCall call s = (s, [.transferred call (ShutdownError true)])) ∧
    (s.outboundQueueStopped = false →
      (QueueOutboundCall call s).1.outboundQueue = s.outboundQueue ++ [call]) ∧
    (s.outboundQueueStopped = false → s.outboundQueue = [] → s.closing = false →
      (QueueOutboundCall call s).1.pendingTasks =
          s.pendingTasks ++ [processOutboundQueueTaskId] ∧
        (QueueOutboundCall call s).2 = [.wakeThread]) ∧
    (s.outboundQueueStopped = false → s.outboundQueue ≠ [] →
      (QueueOutboundCall call s).1.pendingTasks = s.pendingTasks ∧
        (QueueOutboundCall call s).2 = []) := by
  refine ⟨fun hs => ?_, fun hs => ?_, fun hs hq hc => ?_, fun hs hq => ?_⟩
  · simp [QueueOutboundCall, hs]
  · by_cases hq : s.outboundQueue = []
    · by_cases hc : s.closing <;> simp [QueueOutboundCall, hs, hq, ScheduleReactorTask, hc]
    · simp [QueueOutboundCall, hs, hq, ScheduleReactorTask]
  · simp [QueueOutboundCall, hs, hq, ScheduleReactorTask, hc]
  · simp [QueueOutboundCall, hs, List.isEmpty_iff, hq]

/-- Witness for C5: queueing call 3 onto an open reactor with an empty queue
pushes it and schedules the flush task; with the queue stopped the call is
aborted. -/
def c5OpenState : ReactorState :=
  { closing := false, stopping := false, pendingTasks := [9], asyncHandlerTasks := []
    scheduledTasks := [], outboundQueue := [], processingOutboundQueue := []
    outboundQueueStopped := false, serverConns := [], clientConns := []
    waitingConns := [], curTime := 0, connectionKeepaliveTime := 60 }

theorem queueOutboundCall_pushes_and_flushes_witness :
    (QueueOutboundCall 3 c5OpenState).1.outboundQueue = [3] ∧
    (QueueOutboundCall 3 c5OpenState).1.pendingTasks = [9, processOutboundQueueTaskId] ∧
    (QueueOutboundCall 3 c5OpenState).2 = [.wakeThread] := by
  refine ⟨(queueOutboundCall_pushes_and_flushes 3 c5OpenState).2.1 rfl, ?_, ?_⟩
  · exact ((queueOutboundCall_pushes_and_flushes 3 c5OpenState).2.2.1 rfl rfl rfl).1
  · exact ((queueOutboundCall_pushes_and_flushes 3 c5OpenState).2.2.1 rfl rfl rfl).2

/-! ## C6: ProcessOutboundQueue dedups connections before OutboundQueued -/

/-- `std::unique` on the tail of a run whose last kept element is `a`: drop
elements equal to `a`, keep the first differing element and continue from it. -/
def uniqueAdjFrom (a : Nat) : List Nat → List Nat
  | [] => []
  | b :: t => if a = b then uniqueAdjFrom a t else b :: uniqueAdjFrom b t

/-- `std::unique`: remove adjacent duplicates, keeping the first element of
each run of consecutive equal elements. -/
def uniqueAdj : List Nat → List Nat
  | [] => []
  | a :: t => a :: uniqueAdjFrom a t

theorem mem_of_mem_uniqueAdjFrom {x : Nat} :
    ∀ (a : Nat) (t : List Nat), x ∈ uniqueAdjFrom a t → x ∈ t := by
  intro a t
  induction t generalizing a with
  | nil => simp [uniqueAdjFrom]
  | cons b t' ih =>
    intro hx
    simp only [uniqueAdjFrom] at hx
    by_cases hab : a = b
    · rw [if_pos hab] at hx
      exact List.mem_cons_of_mem b (ih a hx)
    · rw [if_neg hab] at hx
      rcases List.mem_cons.mp hx with h | h
      · exact h ▸ List.mem_cons_self b t'
      · exact List.mem_cons_of_mem b (ih b h)

theorem not_mem_uniqueAdjFrom :
    ∀ (a : Nat) (t : List Nat), List.Sorted (· ≤ ·) (a :: t) → a ∉ uniqueAdjFrom a t := by
  intro a t
  induction t generalizing a with
  | nil => simp [uniqueAdjFrom]
  | cons b t' ih =>
    intro hs hmem
    rcases List.sorted_cons.mp hs with ⟨hle, hst⟩
    simp only [uniqueAdjFrom] at hmem
    by_cases hab : a = b
    · rw [if_pos hab] at hmem
      have hs' : List.Sorted (· ≤ ·) (a :: t') := by
        refine List.sorted_cons.mpr ⟨fun x hx => hle x (List.mem_cons_of_mem b hx), ?_⟩
        exact (List.sorted_cons.mp hst).2
      exact ih a hs' hmem
    · rw [if_neg hab] at hmem
      rcases List.mem_cons.mp hmem with h | h
      · exact hab h
      · have hat' : a ∈ t' := mem_of_mem_uniqueAdjFrom b t' h
        have hba : b ≤ a := (List.sorted_cons.mp hst).1 a hat'
        have hab' : a ≤ b := hle b (List.mem_cons_self b t')
        exact hab (Nat.le_antisymm hab' hba)

theorem nodup_uniqueAdjFrom :
    ∀ (a : Nat) (t : List Nat), List.Sorted (· ≤ ·) (a :: t) →
      (uniqueAdjFrom a t).Nodup := by
  intro a t
  induction t generalizing a with
  | nil => simp [uniqueAdjFrom]
  | cons b t' ih =>
    intro hs
    rcases List.sorted_cons.mp hs with ⟨hle, hst⟩
    simp only [uniqueAdjFrom]
    by_cases hab : a = b
    · rw [if_pos hab]
      have hs' : List.Sorted (· ≤ ·) (a :: t') := by
        refine List.sorted_cons.mpr ⟨fun x hx => hle x (List.mem_cons_of_mem b hx), ?_⟩
        exact (List.sorted_cons.mp hst).2
      exact ih a hs'
    · rw [if_neg hab]
      exact List.nodup_cons.mpr ⟨not_mem_uniqueAdjFrom b t' hst, ih b hst⟩

theorem nodup_uniqueAdj (l : List Nat) (hs : List.Sorted (· ≤ ·) l) :
    (uniqueAdj l).Nodup := by
  cases l with
  | nil => simp [uniqueAdj]
  | cons a t =>
    exact List.nodup_cons.mpr ⟨not_mem_uniqueAdjFrom a t hs, nodup_uniqueAdjFrom a t hs⟩

theorem mem_uniqueAdjFrom_of_mem {x : Nat} :
    ∀ (a : Nat) (t : List Nat), x ∈ t → x = a ∨ x ∈ uniqueAdjFrom a t := by
  intro a t
  induction t generalizing a with
  | nil => simp
  | cons b t' ih =>
    intro hx
    simp only [uniqueAdjFrom]
    by_cases hab : a = b
    · rw [if_pos hab]
      rcases List.mem_cons.mp hx with h | h
      · exact Or.inl (h.trans hab.symm)
      · exact ih a h
    · rw [if_neg hab]
      rcases List.mem_cons.mp hx with h | h
      · exact Or.inr (h ▸ List.mem_cons_self b _)
      · rcases ih b h with h' | h'
        · exact Or.inr (h' ▸ List.mem_cons_self b _)
        · exact Or.inr (List.mem_cons_of_mem b h')

theorem mem_uniqueAdj_of_mem {x : Nat} (l : List Nat) (hx : x ∈ l) : x ∈ uniqueAdj l := by
  cases l with
  | nil => cases hx
  | cons a t =>
    simp only [uniqueAdj]
    rcases List.mem_cons.mp hx with h | h
    · exact h ▸ List.mem_cons_self a _
    · rcases mem_uniqueAdjFrom_of_mem a t h with h' | h'
      · exact h' ▸ List.mem_cons_self a _
      · exact List.mem_cons_of_mem a h'

/-- `Reactor::AssignOutboundCall(call)` with the outcome of
`FindOrStartConnection` abstracted into `assign` (the resulting connection
pointer, `0` for a failed lookup/creation, in which case the call gets
`SetFailed` and a null pointer is returned; otherwise the call is queued onto
the connection). -/
def AssignOutboundCall (assign : Nat → Nat) (call : Nat) : Nat × List Effect :=
  let conn := assign call
  if conn = 0 then (0, [.setFailed call])
  else (conn, [.connQueuedCall conn call])

/-- `Reactor::ProcessOutboundQueue` (the flush task): swap `outbound_queue_`
with `processing_outbound_queue_` under the lock; return if nothing got
swapped in; otherwise assign every drained call, collecting the resulting
connection pointers into `processing_connections_`; clear the scratch call
buffer; `std::sort` then `std::unique` the collected pointers; finally invoke
`OutboundQueued()` on every distinct non-null connection and clear. -/
def ProcessOutboundQueue (assign : Nat → Nat) (s : ReactorState) : ReactorState × List Effect :=
  let processing := s.outboundQueue
  let s1 := { s with
    outboundQueue := s.processingOutboundQueue
    processingOutboundQueue := processing }
  if processing.isEmpty then (s1, [])
  else
    let results := processing.map (AssignOutboundCall assign)
    let assignEffects := (results.map Prod.snd).flatten
    let conns := results.map Prod.fst
    let deduped := uniqueAdj conns.mergeSort
    let queuedEffects := (deduped.filter (fun c => c != 0)).map Effect.outboundQueued
    ({ s1 with processingOutboundQueue := [] }, assignEffects ++ queuedEffects)

theorem outboundQueued_injective : Function.Injective Effect.outboundQueued := by
  intro a b h
  cases h
  rfl

theorem outboundQueued_not_mem_assignEffects (assign : Nat → Nat) (processing : List Nat)
    (c : Nat) :
    Effect.outboundQueued c ∉
      ((processing.map (AssignOutboundCall assign)).map Prod.snd).flatten := by
  intro hmem
  rcases List.mem_flatten.mp hmem with ⟨l, hl, hcl⟩
  rcases List.mem_map.mp hl with ⟨r, hr, hrl⟩
  rcases List.mem_map.mp hr with ⟨call, _, hcall⟩
  subst hcall
  subst hrl
  by_cases h0 : assign call = 0 <;> simp [AssignOutboundCall, h0] at hcl

/-- **C6.** In every run of `ProcessOutboundQueue`, the collected connection
pointers are sorted and uniqued before the `OutboundQueued()` kicks, so each
distinct connection receives `OutboundQueued()` at most once per flush,
however many of the batch's calls were assigned to it — and every connection
that did receive a call in this batch gets exactly that one kick. -/
theorem processOutboundQueue_dedups_connections (assign : Nat → Nat) (s : ReactorState) :
    (∀ c, ((ProcessOutboundQueue assign s).2).count (Effect.outboundQueued c) ≤ 1) ∧
    (∀ call ∈ s.outboundQueue, assign call ≠ 0 →
      Effect.outboundQueued (assign call) ∈ (ProcessOutboundQueue assign s).2) := by
  constructor
  · intro c
    by_cases hq : s.outboundQueue.isEmpty
    · simp [ProcessOutboundQueue, hq]
    · simp only [ProcessOutboundQueue, hq, if_neg, Bool.false_eq_true, not_false_iff]
      rw [List.count_append]
      have hzero :
          (((s.outboundQueue.map (AssignOutboundCall assign)).map Prod.snd).flatten).count
            (Effect.outboundQueued c) = 0 :=
        List.count_eq_zero.mpr (outboundQueued_not_mem_assignEffects assign s.outboundQueue c)
      rw [hzero, Nat.zero_add]
      have hnodup :
          ((uniqueAdj ((s.outboundQueue.map (AssignOutboundCall assign)).map
              Prod.fst).mergeSort).filter (fun c => c != 0)).Nodup :=
        (nodup_uniqueAdj _ (List.sorted_mergeSort' _)).filter _
      exact List.nodup_iff_count_le_one.mp (hnodup.map outboundQueued_injective) _
  · intro call hcall h0
    have hq : s.outboundQueue.isEmpty = false := by
      cases hqe : s.outboundQueue with
      | nil => rw [hqe] at hcall; cases hcall
      | cons a t => simp [hqe]
    simp only [ProcessOutboundQueue]
    rw [if_neg (by simp [hq])]
    refine List.mem_append_right _ ?_
    have hfst : (AssignOutboundCall assign call).1 = assign call := by
      by_cases hz : assign call = 0 <;> simp [AssignOutboundCall, hz]
    have hconns : assign call ∈
        (s.outboundQueue.map (AssignOutboundCall assign)).map Prod.fst := by
      rw [← hfst]
      exact List.mem_map_of_mem Prod.fst
        (List.mem_map_of_mem (AssignOutboundCall assign) hcall)
    have hsorted : assign call ∈
        ((s.outboundQueue.map (AssignOutboundCall assign)).map Prod.fst).mergeSort :=
      (List.mergeSort_perm _ _).mem_iff.mpr hconns
    have hdedup := mem_uniqueAdj_of_mem _ hsorted
    refine List.mem_map_of_mem Effect.outboundQueued (List.mem_filter.mpr ⟨hdedup, ?_⟩)
    simpa using h0

/-- Witness for C6: two calls assigned to the same connection (pointer 2)
produce a single `OutboundQueued` kick. -/
def c6State : ReactorState :=
  { closing := false, stopping := false, pendingTasks := [], asyncHandlerTasks := []
    scheduledTasks := [], outboundQueue := [8, 9], processingOutboundQueue := []
    outboundQueueStopped := false, serverConns := [], clientConns := []
    waitingConns := [], curTime := 0, connectionKeepaliveTime := 60 }

theorem processOutboundQueue_dedups_connections_witness :
    ((ProcessOutboundQueue (fun _ => 2) c6State).2).count (Effect.outboundQueued 2) ≤ 1 ∧
    Effect.outboundQueued 2 ∈ (ProcessOutboundQueue (fun _ => 2) c6State).2 :=
  ⟨(processOutboundQueue_dedups_connections (fun _ => 2) c6State).1 2,
   (processOutboundQueue_dedups_connections (fun _ => 2) c6State).2 8 (by decide) (by decide)⟩

/-! ## C7: ScanIdleConnections -/

/-- The reap test of `Reactor::ScanIdleConnections` for one connection:
`Idle()` and `cur_time_ - last_activity_time` strictly more than
`connection_keepalive_time_` (`MonoDelta::MoreThan` is a strict comparison). -/
def reapCondition (curTime keepalive : Nat) (c : Conn) : Bool :=
  c.idle && decide ((keepalive : Int) < (curTime : Int) - (c.lastActivityTime : Int))

/-- The walk over `server_conns_`: a non-idle or young-enough connection is
kept; an idle connection over the keep-alive limit is shut down with the
`NetworkError("connection timed out after ...")` status and erased. -/
def scanLoop (curTime keepalive : Nat) : List Conn → List Conn × List Effect
  | [] => ([], [])
  | c :: rest =>
    let r := scanLoop curTime keepalive rest
    if reapCondition curTime keepalive c then
      (r.1, Effect.connShutdown c.ptr
        (Status.networkError ((curTime : Int) - (c.lastActivityTime : Int))) :: r.2)
    else
      (c :: r.1, r.2)

/-- `Reactor::ScanIdleConnections`, acting on `server_conns_` with the
reactor's `cur_time_` and `connection_keepalive_time_`. -/
def ScanIdleConnections (s : ReactorState) : ReactorState × List Effect :=
  let r := scanLoop s.curTime s.connectionKeepaliveTime s.serverConns
  ({ s with serverConns := r.1 }, r.2)

theorem scanLoop_spec (curTime keepalive : Nat) (l : List Conn) :
    scanLoop curTime keepalive l =
      (l.filter (fun c => !reapCondition curTime keepalive c),
       (l.filter (reapCondition curTime keepalive)).map
         (fun c => Effect.connShutdown c.ptr
           (Status.networkError ((curTime : Int) - (c.lastActivityTime : Int))))) := by
  induction l with
  | nil => rfl
  | cons c rest ih =>
    by_cases hc : reapCondition curTime keepalive c <;>
      simp [scanLoop, List.filter_cons, hc, ih]

/-- **C7.** The idle scanner removes from `server_conns_` exactly the
connections with `Idle()` true whose idle delta strictly exceeds
`connection_keepalive_time_`, shutting each down with the NetworkError
"connection timed out" status in list order; a connection whose delta equals
the keep-alive exactly, or which is not idle, is kept untouched. -/
theorem scanIdleConnections_reaps_strictly_idle (s : ReactorState) :
    (ScanIdleConnections s).1.serverConns =
      s.serverConns.filter
        (fun c => !reapCondition s.curTime s.connectionKeepaliveTime c) ∧
    (ScanIdleConnections s).2 =
      (s.serverConns.filter (reapCondition s.curTime s.connectionKeepaliveTime)).map
        (fun c => Effect.connShutdown c.ptr
          (Status.networkError ((s.curTime : Int) - (c.lastActivityTime : Int)))) ∧
    (∀ c ∈ s.serverConns,
      (s.curTime : Int) - (c.lastActivityTime : Int) = (s.connectionKeepaliveTime : Int) →
        c ∈ (ScanIdleConnections s).1.serverConns) ∧
    (∀ c ∈ s.serverConns, c.idle = false → c ∈ (ScanIdleConnections s).1.serverConns) := by
  have hloop := scanLoop_spec s.curTime s.connectionKeepaliveTime s.serverConns
  refine ⟨?_, ?_, ?_, ?_⟩
  · simp [ScanIdleConnections, hloop]
  · simp [ScanIdleConnections, hloop]
  · intro c hc hdelta
    simp only [ScanIdleConnections, hloop]
    refine List.mem_filter.mpr ⟨hc, ?_⟩
    simp [reapCondition, hdelta]
  · intro c hc hidle
    simp only [ScanIdleConnections, hloop]
    refine List.mem_filter.mpr ⟨hc, ?_⟩
    simp [reapCondition, hidle]

/-- Witness for C7: with `cur_time_ = 100` and `keepalive = 60`, an idle
connection last active at time 30 (delta 70) is reaped and shut down with the
timeout NetworkError; an idle one last active at 40 (delta exactly 60) and a
non-idle one last active at 0 are kept. -/
def c7Reaped : Conn :=
  { ptr := 1, direction := .server, remote := 5, creds := 0, idle := true
    lastActivityTime := 30, readyToStop := false }

def c7Boundary : Conn :=
  { ptr := 2, direction := .server, remote := 5, creds := 0, idle := true
    lastActivityTime := 40, readyToStop := false }

def c7Busy : Conn :=
  { ptr := 3, direction := .server, remote := 5, creds := 0, idle := false
    lastActivityTime := 0, readyToStop := false }

def c7State : ReactorState :=
  { closing := false, stopping := false, pendingTasks := [], asyncHandlerTasks := []
    scheduledTasks := [], outboundQueue := [], processingOutboundQueue := []
    outboundQueueStopped := false, serverConns := [c7Reaped, c7Boundary, c7Busy]
    clientConns := [], waitingConns := [], curTime := 100, connectionKeepaliveTime := 60 }

theorem scanIdleConnections_reaps_strictly_idle_witness :
    (ScanIdleConnections c7State).1.serverConns = [c7Boundary, c7Busy] ∧
    (ScanIdleConnections c7State).2 = [.connShutdown 1 (.networkError 70)] ∧
    c7Boundary ∈ (ScanIdleConnections c7State).1.serverConns := by
  refine ⟨?_, ?_, ?_⟩
  · rw [(scanIdleConnections_reaps_strictly_idle c7State).1]
    decide
  · rw [(scanIdleConnections_reaps_strictly_idle c7State).2.1]
    decide
  · exact (scanIdleConnections_reaps_strictly_idle c7State).2.2.1 c7Boundary (by decide)
      (by decide)

/-! ## C8: the reactor timer handler -/

/-- `Reactor::TimerHandler(watcher, revents)`: on `EV_ERROR` log and return;
then, if `stopping_`, call `CheckReadyToStop()` and return; only otherwise
set `cur_time_` to the current coarse-clock reading and scan idle
connections.  The `scanIdle` marker records that the scan ran. -/
def ReactorTimerHandler (evError : Bool) (now : Nat) (s : ReactorState) :
    ReactorState × List Effect :=
  if evError then (s, [])
  else if s.stopping then CheckReadyToStop s
  else
    let r := ScanIdleConnections { s with curTime := now }
    (r.1, Effect.scanIdle :: r.2)

/-- Concrete stopping reactor used to refute C8 as stated. -/
def c8State : ReactorState :=
  { closing := true, stopping := true, pendingTasks := [], asyncHandlerTasks := []
    scheduledTasks := [], outboundQueue := [], processingOutboundQueue := []
    outboundQueueStopped := true, serverConns := [], clientConns := []
    waitingConns := [], curTime := 0, connectionKeepaliveTime := 60 }

/-- **C8, counterexample.** The claim says `cur_time_` is updated to the
current coarse-clock time on *every* invocation of the timer handler.  It is
not: the `stopping_` check comes before the update, so a tick at time 5 on a
stopping reactor leaves `cur_time_` at 0 (it does call `CheckReadyToStop`);
moreover on a tick whose revents carry `EV_ERROR` the handler returns at once
and `CheckReadyToStop` is not called even though `stopping_` is true. -/
theorem reactorTimerHandler_counterexample :
    (ReactorTimerHandler false 5 c8State).1.curTime ≠ 5 ∧
    Effect.checkReadyToStop ∈ (ReactorTimerHandler false 5 c8State).2 ∧
    Effect.checkReadyToStop ∉ (ReactorTimerHandler true 5 c8State).2 := by
  refine ⟨by decide, by decide, by decide⟩

/-- **C8 (amended).** On a timer-error tick the handler returns immediately.
Otherwise, when `stopping_` is true the handler calls `CheckReadyToStop()` and
returns without updating `cur_time_` and without scanning idle connections;
when `stopping_` is false the handler updates `cur_time_` to the current
coarse-clock time and scans idle connections. -/
theorem reactorTimerHandler_branches (evError : Bool) (now : Nat) (s : ReactorState) :
    (evError = true → ReactorTimerHandler evError now s = (s, [])) ∧
    (evError = false → s.stopping = true →
      ReactorTimerHandler evError now s = CheckReadyToStop s ∧
      (ReactorTimerHandler evError now s).1.curTime = s.curTime ∧
      Effect.checkReadyToStop ∈ (ReactorTimerHandler evError now s).2 ∧
      Effect.scanIdle ∉ (ReactorTimerHandler evError now s).2) ∧
    (evError = false → s.stopping = false →
      (ReactorTimerHandler evError now s).1.curTime = now ∧
      Effect.scanIdle ∈ (ReactorTimerHandler evError now s).2) := by
  refine ⟨fun he => ?_, fun he hs => ?_, fun he hs => ?_⟩
  · simp [ReactorTimerHandler, he]
  · have heq : ReactorTimerHandler evError now s = CheckReadyToStop s := by
      simp [ReactorTimerHandler, he, hs]
    refine ⟨heq, ?_, ?_, ?_⟩
    · rw [heq]
      rfl
    · rw [heq]
      exact List.mem_cons_self _ _
    · rw [heq]
      simp only [CheckReadyToStop, List.mem_cons]
      rintro (h | h)
      · exact Effect.noConfusion h
      · split at h <;> simp_all
  · constructor
    · simp [ReactorTimerHandler, he, hs, ScanIdleConnections]
    · simp [ReactorTimerHandler, he, hs]

/-- A running (non-stopping) reactor used in C8's witness. -/
def c8RunningState : ReactorState :=
  { closing := false, stopping := false, pendingTasks := [], asyncHandlerTasks := []
    scheduledTasks := [], outboundQueue := [], processingOutboundQueue := []
    outboundQueueStopped := false, serverConns := [], clientConns := []
    waitingConns := [], curTime := 0, connectionKeepaliveTime := 60 }

/-- Witness for C8's amended theorem: a non-stopping tick at time 7 updates
`cur_time_` and scans; a stopping tick leaves `cur_time_` alone. -/
theorem reactorTimerHandler_branches_witness :
    ((ReactorTimerHandler false 7 c8RunningState).1.curTime = 7 ∧
      Effect.scanIdle ∈ (ReactorTimerHandler false 7 c8RunningState).2) ∧
    (ReactorTimerHandler false 5 c8State).1.curTime = c8State.curTime :=
  ⟨(reactorTimerHandler_branches false 7 c8RunningState).2.2 rfl rfl,
   ((reactorTimerHandler_branches false 5 c8State).2.1 rfl rfl).2.1⟩

/-! ## C9: DestroyConnection direction asymmetry -/

/-- One probe of `client_conns_` in `DestroyConnection`: look the key up in the
map (keys are unique, so the first match is the only one) and erase the entry
only when its value is this very connection object.  Returns the new map and
whether an entry was erased. -/
def mapEraseIf (key : ConnectionId) (connPtr : Nat) :
    List (ConnectionId × Conn) → List (ConnectionId × Conn) × Bool
  | [] => ([], false)
  | p :: rest =>
    if p.1 = key then
      if p.2.ptr = connPtr then (rest, true) else (p :: rest, false)
    else
      let r := mapEraseIf key connPtr rest
      (p :: r.1, r.2)

/-- The CLIENT-direction loop of `DestroyConnection`: probe
`ConnectionId{remote, creds, idx}` for every `idx` in
`[0, num_connections_to_server)`, accumulating whether any probe erased. -/
def eraseClientLoop (conn : Conn) : Nat → List (ConnectionId × Conn) →
    List (ConnectionId × Conn) × Bool
  | 0, m => (m, false)
  | n + 1, m =>
    let r := eraseClientLoop conn n m
    let r2 := mapEraseIf ⟨conn.remote, conn.creds, n⟩ conn.ptr r.1
    (r2.1, r.2 || r2.2)

/-- The SERVER-direction scan of `DestroyConnection`: linear walk of
`server_conns_`, erasing the first entry whose object is this connection and
breaking; absent a match the list is returned unchanged. -/
def eraseFirstConn (ptr : Nat) : List Conn → List Conn
  | [] => []
  | c :: rest => if c.ptr = ptr then rest else c :: eraseFirstConn ptr rest

/-- `Reactor::DestroyConnection(conn, status)`: shut the connection down, then
unlink it from the table matching its direction.  For CLIENT, probe every
index and `CHECK(erased)` — a connection found under no index is a fatal check
failure, modelled as `none`.  For SERVER, erase the first matching entry of
`server_conns_` (silently a no-op when absent). -/
def DestroyConnection (conn : Conn) (st : Status) (numConnectionsToServer : Nat)
    (s : ReactorState) : Option (ReactorState × List Effect) :=
  let effs := [Effect.connShutdown conn.ptr st]
  match conn.direction with
  | .client =>
    let r := eraseClientLoop conn numConnectionsToServer s.clientConns
    if r.2 then some ({ s with clientConns := r.1 }, effs) else none
  | .server =>
    some ({ s with serverConns := eraseFirstConn conn.ptr s.serverConns }, effs)

theorem mapEraseIf_no_match (key : ConnectionId) (ptr : Nat)
    (m : List (ConnectionId × Conn)) (h : ∀ p ∈ m, p.2.ptr ≠ ptr) :
    mapEraseIf key ptr m = (m, false) := by
  induction m with
  | nil => rfl
  | cons p rest ih =>
    simp only [mapEraseIf]
    by_cases hk : p.1 = key
    · rw [if_pos hk, if_neg (h p (List.mem_cons_self p rest))]
    · rw [if_neg hk, ih (fun q hq => h q (List.mem_cons_of_mem p hq))]

theorem eraseClientLoop_no_match (conn : Conn) (n : Nat)
    (m : List (ConnectionId × Conn)) (h : ∀ p ∈ m, p.2.ptr ≠ conn.ptr) :
    eraseClientLoop conn n m = (m, false) := by
  induction n with
  | zero => rfl
  | succ k ih =>
    simp only [eraseClientLoop, ih, mapEraseIf_no_match _ _ m h]
    rfl

theorem eraseFirstConn_no_match (ptr : Nat) (l : List Conn)
    (h : ∀ c ∈ l, c.ptr ≠ ptr) : eraseFirstConn ptr l = l := by
  induction l with
  | nil => rfl
  | cons c rest ih =>
    simp only [eraseFirstConn]
    rw [if_neg (h c (List.mem_cons_self c rest)),
      ih (fun x hx => h x (List.mem_cons_of_mem c hx))]

theorem eraseFirstConn_length (ptr : Nat) (l : List Conn) :
    l.length ≤ (eraseFirstConn ptr l).length + 1 := by
  induction l with
  | nil => simp [eraseFirstConn]
  | cons c rest ih =>
    simp only [eraseFirstConn, List.length_cons]
    by_cases hc : c.ptr = ptr
    · simp [hc]
    · rw [if_neg hc]
      simpa using Nat.succ_le_succ ih

/-- **C9.** `DestroyConnection` enforces its found-in-table check
asymmetrically.  For a CLIENT-direction connection present at no index of
`client_conns_`, the `CHECK(erased)` fails — a fatal crash, modelled as
`none`.  For a SERVER-direction connection the call always completes,
erasing at most the first `server_conns_` entry holding this object (so the
list shrinks by at most one); when the connection is absent the call is a
silent no-op that leaves `server_conns_` (and the rest of the state)
unchanged. -/
theorem destroyConnection_direction_asymmetry (conn : Conn) (st : Status)
    (numConns : Nat) (s : ReactorState) :
    (conn.direction = .client →
      (∀ p ∈ s.clientConns, p.2.ptr ≠ conn.ptr) →
      DestroyConnection conn st numConns s = none) ∧
    (conn.direction = .server →
      DestroyConnection conn st numConns s =
        some ({ s with serverConns := eraseFirstConn conn.ptr s.serverConns },
          [.connShutdown conn.ptr st]) ∧
      s.serverConns.length ≤ (eraseFirstConn conn.ptr s.serverConns).length + 1 ∧
      ((∀ c ∈ s.serverConns, c.ptr ≠ conn.ptr) →
        DestroyConnection conn st numConns s = some (s, [.connShutdown conn.ptr st]))) := by
  constructor
  · intro hd habsent
    simp only [DestroyConnection, hd]
    rw [eraseClientLoop_no_match conn numConns s.clientConns habsent]
    rfl
  · intro hd
    refine ⟨by simp only [DestroyConnection, hd], eraseFirstConn_length _ _, fun habsent => ?_⟩
    simp only [DestroyConnection, hd]
    rw [eraseFirstConn_no_match conn.ptr s.serverConns habsent]

/-- Concrete connections and state for the C9 witness: a CLIENT connection
found at no index is a fatal check failure; an absent SERVER connection is a
silent no-op. -/
def c9ClientConn : Conn :=
  { ptr := 21, direction := .client, remote := 5, creds := 1, idle := false
    lastActivityTime := 0, readyToStop := false }

def c9ServerConn : Conn :=
  { ptr := 22, direction := .server, remote := 6, creds := 0, idle := false
    lastActivityTime := 0, readyToStop := false }

def c9Other : Conn :=
  { ptr := 23, direction := .server, remote := 6, creds := 0, idle := false
    lastActivityTime := 0, readyToStop := false }

def c9State : ReactorState :=
  { closing := false, stopping := false, pendingTasks := [], asyncHandlerTasks := []
    scheduledTasks := [], outboundQueue := [], processingOutboundQueue := []
    outboundQueueStopped := false, serverConns := [c9Other]
    clientConns := [(⟨5, 1, 0⟩, c9Other)], waitingConns := []
    curTime := 0, connectionKeepaliveTime := 60 }

theorem destroyConnection_direction_asymmetry_witness :
    DestroyConnection c9ClientConn Status.ok 8 c9State = none ∧
    DestroyConnection c9ServerConn Status.ok 8 c9State =
      some (c9State, [.connShutdown 22 Status.ok]) :=
  ⟨(destroyConnection_direction_asymmetry c9ClientConn Status.ok 8 c9State).1 rfl
      (by decide),
   (destroyConnection_direction_asymmetry c9ServerConn Status.ok 8 c9State).2 rfl |>.2.2
      (by decide)⟩

/-! ## C3: RegisterConnection -/

/-- `Reactor::RegisterConnection(conn)` on the reactor thread: compute the
negotiation deadline as `now + FLAGS_rpc_negotiation_timeout_ms`, submit the
connection to negotiation (`StartConnectionNegotiation`, whose outcome is the
`negotiationStatus` argument); if submission failed, `DestroyConnection(conn,
status)`.  The C++ then executes `server_conns_.push_back(conn)`
*unconditionally* — there is no early return on the failure path. -/
def RegisterConnection (negotiationStatus : Status) (now negotiationTimeoutMs : Nat)
    (conn : Conn) (numConns : Nat) (s : ReactorState) :
    Option (ReactorState × List Effect) :=
  let deadline := now + negotiationTimeoutMs
  let subEff := Effect.negotiationStarted conn.ptr deadline
  if negotiationStatus = .ok then
    some ({ s with serverConns := s.serverConns ++ [conn] }, [subEff])
  else
    match DestroyConnection conn negotiationStatus numConns s with
    | none => none
    | some r => some ({ r.1 with serverConns := r.1.serverConns ++ [conn] }, subEff :: r.2)

/-- Inputs exhibiting the C3 failure: a fresh SERVER connection whose
negotiation submission fails. -/
def c3Conn : Conn :=
  { ptr := 31, direction := .server, remote := 9, creds := 0, idle := true
    lastActivityTime := 0, readyToStop := false }

def c3State : ReactorState :=
  { closing := false, stopping := false, pendingTasks := [], asyncHandlerTasks := []
    scheduledTasks := [], outboundQueue := [], processingOutboundQueue := []
    outboundQueueStopped := false, serverConns := [], clientConns := []
    waitingConns := [], curTime := 0, connectionKeepaliveTime := 60 }

def c3FailStatus : Status := .serviceUnavailable "Client RPC Messenger shutting down" (-1)

/-- **C3 (code bug).** The claim (and the spec's table invariant that
connections in `server_conns_` have never been shut down) says the connection
is appended to `server_conns_` only when negotiation submission succeeds.  The
code lacks the early return: evaluated at a failing submission, the connection
is shut down and destroyed — and then still pushed into `server_conns_`, where
it now sits in shut-down state.  The deadline is `now + timeout` (0 + 3000
here) as claimed. -/
theorem registerConnection_pushes_destroyed_conn :
    RegisterConnection c3FailStatus 0 3000 c3Conn 8 c3State =
      some ({ c3State with serverConns := [c3Conn] },
        [.negotiationStarted 31 3000, .connShutdown 31 c3FailStatus]) ∧
    c3Conn ∈ ({ c3State with serverConns := [c3Conn] } : ReactorState).serverConns := by
  refine ⟨by decide, by decide⟩

/-! ## C10: GetMetrics / RunOnReactorThread after shutdown -/

/-- `Reactor::RunOnReactorThread(f)`: wrap `f` in a `RunFunctionTask`, submit
it with `ScheduleReactorTask`, and `Wait()`.  When `closing_` is set the
submission immediately calls the task's `Abort(ShutdownError(false))`, which
stores that status and counts the latch down — `f` never runs, so the
caller-supplied output object is untouched and `Wait` returns the
ServiceUnavailable status.  Otherwise the reactor thread runs `f`, which may
write the output, and `Wait` returns `f`'s status. -/
def RunOnReactorThread {α : Type} (s : ReactorState) (f : ReactorState → Status × α)
    (out : α) : Status × α :=
  if s.closing then (ShutdownError false, out) else f s

/-- `ReactorMetrics`: the two connection counts `GetMetrics` reports. -/
structure ReactorMetrics where
  numClientConnections : Nat
  numServerConnections : Nat
deriving DecidableEq, Repr

/-- `Reactor::GetMetrics(metrics)`: a `RunOnReactorThread` round-trip whose
function fills the metrics from `client_conns_.size()` and
`server_conns_.size()` and returns OK. -/
def GetMetrics (s : ReactorState) (m : ReactorMetrics) : Status × ReactorMetrics :=
  RunOnReactorThread s
    (fun r => (Status.ok, ⟨r.clientConns.length, r.serverConns.length⟩)) m

/-- **C10.** `GetMetrics` (and any `RunOnReactorThread` round-trip) invoked
after `Shutdown` has set `closing_` gets its task aborted instead of run: the
call returns `ServiceUnavailable("reactor is shutting down", errno ESHUTDOWN)`
and the caller-supplied metrics object is returned unmodified. -/
theorem getMetrics_after_shutdown (s : ReactorState) (m : ReactorMetrics)
    (h : s.closing = true) :
    GetMetrics s m = (.serviceUnavailable "reactor is shutting down" ESHUTDOWN, m) := by
  simp [GetMetrics, RunOnReactorThread, h, ShutdownError]

/-- Closed reactor and pre-filled metrics for the C10 witness: the stale
counts 5/7 come back untouched together with the shutting-down status. -/
def c10State : ReactorState :=
  { closing := true, stopping := true, pendingTasks := [], asyncHandlerTasks := []
    scheduledTasks := [], outboundQueue := [], processingOutboundQueue := []
    outboundQueueStopped := true, serverConns := [], clientConns := []
    waitingConns := [], curTime := 0, connectionKeepaliveTime := 60 }

theorem getMetrics_after_shutdown_witness :
    GetMetrics c10State ⟨5, 7⟩ =
      (.serviceUnavailable "reactor is shutting down" ESHUTDOWN, ⟨5, 7⟩) :=
  getMetrics_after_shutdown c10State ⟨5, 7⟩ rfl
